import Mathlib

/-!
Verification of the Docy AI documentation backend (`src/main.py`).

The backend is a small service over a fixed in-memory page registry:
`list_pages` returns the registry, `get_page` looks a page up by slug,
`ask_ai` answers a question by keyword/substring matching against the
pages, and `test_database` is a diagnostic probe for an optional
database dependency.

Python string primitives used by the code (`str.strip`, `str.lower`,
`str.split`, the `in` substring test, and `[:n]` slicing) are modelled
by structurally recursive Lean functions over `List Char` (`pyStrip`,
`pyLower`, `pySplit`, `pyIn`, `pyTake`) so that every definition is
executable and kernel-reducible.
-/

set_option maxRecDepth 100000

namespace Docy

/-- Python `str.lower()` (ASCII case folding, which covers all registry
content). -/
def pyLower (s : String) : String := ⟨s.data.map Char.toLower⟩

/-- Python `str.strip()`: drop leading and trailing whitespace. -/
def pyStrip (s : String) : String :=
  ⟨((s.data.dropWhile Char.isWhitespace).reverse.dropWhile Char.isWhitespace).reverse⟩

/-- Helper for `pySplit`: walk the characters, accumulating the current
token (in reverse) and emitting it at each whitespace run or at the end. -/
def pySplitAux : List Char → List Char → List (List Char)
  | [], acc => if acc.isEmpty then [] else [acc.reverse]
  | c :: cs, acc =>
    if c.isWhitespace then
      if acc.isEmpty then pySplitAux cs []
      else acc.reverse :: pySplitAux cs []
    else pySplitAux cs (c :: acc)

/-- Python `str.split()` with no argument: split on whitespace runs,
discarding empty tokens. -/
def pySplit (s : String) : List String :=
  (pySplitAux s.data []).map (fun l => ⟨l⟩)

/-- Substring containment on character lists (Python `needle in hay`). -/
def listInfixOf : List Char → List Char → Bool
  | ns, [] => ns.isEmpty
  | ns, h :: t => ns.isPrefixOf (h :: t) || listInfixOf ns t

/-- Python `needle in hay` for strings. -/
def pyIn (needle haystack : String) : Bool :=
  listInfixOf needle.data haystack.data

/-- Python `s[:n]`: the first `n` characters of `s`. -/
def pyTake (s : String) (n : Nat) : String := ⟨s.data.take n⟩

/-- Model of `DocPage` (src/main.py lines 18-22): one documentation page. -/
structure DocPage where
  slug : String
  title : String
  summary : Option String := none
  content : String
deriving DecidableEq

/-- The registry `DOC_PAGES` (src/main.py lines 26-60): the fixed in-memory registry. -/
def DOC_PAGES : List DocPage := [
  { slug := "getting-started",
    title := "Getting Started",
    summary := some "Quick intro to Docy AI Documentation site.",
    content :=
      "# Getting Started\n\n" ++
      "Welcome to Docy AI Documentation. This site showcases a clean docs experience " ++
      "with a built-in AI helper. Use the sidebar to browse topics or ask the AI a question.\n\n" ++
      "- Navigate through topics\n- Use the search to find content\n- Open the chat bubble to ask anything about the docs\n" },
  { slug := "writing-docs",
    title := "Writing Docs",
    summary := some "Structure and style guidelines.",
    content :=
      "# Writing Docs\n\n" ++
      "Keep content concise, add headings, and prefer examples.\n\n" ++
      "## Tips\n- One idea per section\n- Use bullet points\n- Provide code where helpful\n" },
  { slug := "faq",
    title := "FAQ",
    summary := some "Common questions and answers.",
    content :=
      "# FAQ\n\n" ++
      "**What is Docy AI?**\n\n" ++
      "A friendly documentation experience with an AI helper to guide readers.\n\n" ++
      "**Does it need a database?**\n\n" ++
      "For static docs, no. For user content or analytics, yes.\n" }
]

/-- Endpoint `read_root` (src/main.py lines 63-65). -/
def read_root : String := "Docy AI Backend is running"

/-- Endpoint `list_pages` (src/main.py lines 68-70): return the registry. -/
def list_pages : List DocPage := DOC_PAGES

/-- Endpoint `get_page` (src/main.py lines 73-78): linear scan for the first page
with the given slug; `none` models the 404 `HTTPException`. -/
def get_page (slug : String) : Option DocPage :=
  DOC_PAGES.find? (fun p => p.slug == slug)

/-- Model of `AskResponse` (src/main.py lines 85-87). -/
structure AskResponse where
  answer : String
  sources : List String := []
deriving DecidableEq

/-- The haystack of a page (src/main.py line 100): the title, a space,
the summary or the empty string, a space, and the content, all
lowercased. -/
def hay (p : DocPage) : String :=
  pyLower (p.title ++ " " ++ p.summary.getD "" ++ " " ++ p.content)

/-- The match test of src/main.py line 101:
`any(k in hay for k in q.split() if len(k) > 3)`. -/
def pageMatches (q : String) (p : DocPage) : Bool :=
  ((pySplit q).filter (fun k => 3 < k.length)).any (fun k => pyIn k (hay p))

/-- The `matches` list built by `ask_ai` (src/main.py lines 98-102) for a
given raw question, after `question.strip().lower()`. -/
def askMatches (question : String) : List DocPage :=
  DOC_PAGES.filter (pageMatches (pyLower (pyStrip question)))

/-- One bullet line of the answer template (src/main.py line 105). -/
def tipsLine (m : DocPage) : String :=
  "- " ++ m.title ++ " (/docs/" ++ m.slug ++ ")"

/-- The answer built when matches exist (src/main.py lines 105-110). -/
def foundAnswer (ms : List DocPage) : String :=
  "Here are some details I found in the documentation that may help:\n\n" ++
  String.intercalate "\n" (ms.map tipsLine) ++
  "\n\nOpen one of these pages for a deeper dive."

/-- The fallback answer (src/main.py lines 114-119). -/
def fallbackAnswer : String :=
  "I couldn\x27t find an exact match in the docs. Try rephrasing your question " ++
  "or browse the sections from the sidebar."

/-- Endpoint `ask_ai` (src/main.py lines 90-119). -/
def ask_ai (question : String) : AskResponse :=
  let q := pyLower (pyStrip question)
  if q = "" then { answer := "Please provide a question.", sources := [] }
  else
    let ms := DOC_PAGES.filter (pageMatches q)
    if ms.isEmpty then { answer := fallbackAnswer, sources := [] }
    else
      { answer := foundAnswer (ms.take 3),
        sources := (ms.take 3).map (fun m => "/docs/" ++ m.slug) }

/-- The outcome of `from database import db` and of using `db`
(src/main.py lines 133-151): the import raises `ImportError`, raises some
other exception, yields `db = None`, or yields a handle whose
`list_collection_names()` either returns a list or raises. `name` models
`getattr(db, "name", ...)`. -/
inductive DbOutcome where
  | importError
  | raised (msg : String)
  | dbNone
  | dbSome (name : Option String) (collections : Except String (List String))

/-- The report returned by `test_database` (src/main.py lines 125-132).
`database_url` and `database_name` start as `none` (Python `None`) and are
set to strings before the function returns. -/
structure TestReport where
  backend : String
  database : String
  database_url : Option String
  database_name : Option String
  connection_status : String
  collections : List String
deriving DecidableEq

/-- Endpoint `test_database` (src/main.py lines 122-156): the diagnostic probe.
The dynamic import outcome and the `DATABASE_URL` / `DATABASE_NAME`
environment variables are explicit parameters. -/
def test_database (db : DbOutcome) (urlSet nameSet : Bool) : TestReport :=
  let r0 : TestReport :=
    { backend := "✅ Running"
      database := "❌ Not Available"
      database_url := none
      database_name := none
      connection_status := "Not Connected"
      collections := [] }
  let r1 : TestReport :=
    match db with
    | .importError =>
      { r0 with database := "❌ Database module not found (run enable-database first)" }
    | .raised msg =>
      { r0 with database := "❌ Error: " ++ pyTake msg 50 }
    | .dbNone =>
      { r0 with database := "⚠️  Available but not initialized" }
    | .dbSome name cols =>
      let r :=
        { r0 with database := "✅ Available"
                  database_url := some "✅ Configured"
                  database_name := some (name.getD "✅ Connected")
                  connection_status := "Connected" }
      match cols with
      | .ok cs =>
        { r with collections := cs.take 10, database := "✅ Connected & Working" }
      | .error msg =>
        { r with database := "⚠️  Connected but Error: " ++ pyTake msg 50 }
  { r1 with
      database_url := some (if urlSet then "✅ Set" else "❌ Not Set")
      database_name := some (if nameSet then "✅ Set" else "❌ Not Set") }

/-! ## Helper lemmas -/

/-- The function `List.isPrefixOf` on characters agrees with the mathematical
"`hs` starts with `ns`". -/
theorem isPrefixOf_eq_append (ns hs : List Char) :
    ns.isPrefixOf hs = true ↔ ∃ t, hs = ns ++ t := by
  induction ns generalizing hs with
  | nil => simp [List.isPrefixOf]
  | cons n ns ih =>
    cases hs with
    | nil => simp [List.isPrefixOf]
    | cons h t =>
      simp only [List.isPrefixOf, Bool.and_eq_true, beq_iff_eq, ih, List.cons_append,
        List.cons.injEq]
      constructor
      · rintro ⟨rfl, t', rfl⟩
        exact ⟨t', rfl, rfl⟩
      · rintro ⟨t', rfl, rfl⟩
        exact ⟨rfl, t', rfl⟩

/-- The function `listInfixOf` agrees with the mathematical "`ns` occurs contiguously
inside `hs`". -/
theorem listInfixOf_eq_append (ns hs : List Char) :
    listInfixOf ns hs = true ↔ ∃ pre post, hs = pre ++ ns ++ post := by
  induction hs with
  | nil =>
    simp only [listInfixOf, List.isEmpty_iff]
    constructor
    · rintro rfl
      exact ⟨[], [], rfl⟩
    · rintro ⟨pre, post, hp⟩
      rcases List.append_eq_nil.mp (List.append_eq_nil.mp hp.symm).1 with ⟨-, h2⟩
      exact h2
  | cons h t ih =>
    simp only [listInfixOf, Bool.or_eq_true, isPrefixOf_eq_append, ih]
    constructor
    · rintro (⟨t', ht⟩ | ⟨pre, post, ht⟩)
      · exact ⟨[], t', by simpa using ht⟩
      · exact ⟨h :: pre, post, by simp [ht]⟩
    · rintro ⟨pre, post, ht⟩
      cases pre with
      | nil =>
        exact Or.inl ⟨post, by simpa using ht⟩
      | cons p ps =>
        refine Or.inr ⟨ps, post, ?_⟩
        have := (List.cons.injEq h t p (ps ++ ns ++ post)).mp (by simpa using ht)
        exact this.2

/-- Lowercasing does not change emptiness. -/
theorem pyLower_eq_empty_iff (s : String) : pyLower s = "" ↔ s = "" := by
  cases s with
  | mk l => cases l <;> simp [pyLower, String.ext_iff]

/-- When the question survives trimming but nothing matches, `ask_ai`
returns the fallback answer with no sources (src/main.py lines 113-119). -/
theorem ask_fallback_aux (question : String)
    (h1 : pyLower (pyStrip question) ≠ "")
    (h2 : DOC_PAGES.filter (pageMatches (pyLower (pyStrip question))) = []) :
    ask_ai question = { answer := fallbackAnswer, sources := [] } := by
  simp [ask_ai, h1, h2]

/-! ## Claim theorems -/

/-- C1: for every question whose trimmed text is non-empty, `ask_ai`
considers a page a match if and only if some whitespace-delimited token of
the lowercased trimmed question with length strictly greater than 3 occurs
as a literal substring of the haystack of that page (title, summary or empty,
and content, concatenated and lowercased). -/
theorem ask_match_iff_token_in_haystack :
    ∀ (question : String), pyStrip question ≠ "" →
    ∀ (p : DocPage),
      p ∈ askMatches question ↔
        p ∈ DOC_PAGES ∧
          ∃ k ∈ pySplit (pyLower (pyStrip question)), 3 < k.length ∧
            ∃ pre post, (hay p).data = pre ++ k.data ++ post := by
  intro question _ p
  simp only [askMatches, pageMatches, List.mem_filter, List.any_eq_true, pyIn,
    listInfixOf_eq_append, decide_eq_true_eq]
  constructor
  · rintro ⟨hp, k, ⟨hk, hlen⟩, pre, post, hid⟩
    exact ⟨hp, k, hk, hlen, pre, post, hid⟩
  · rintro ⟨hp, k, hk, hlen, pre, post, hid⟩
    exact ⟨hp, k, ⟨hk, hlen⟩, pre, post, hid⟩

/-- Witness for C1 at question `"getting started"` and the first registry
page. -/
theorem ask_match_iff_token_in_haystack_witness :
    pyStrip "getting started" ≠ "" ∧
      ((DOC_PAGES.get ⟨0, by decide⟩) ∈ askMatches "getting started" ↔
        (DOC_PAGES.get ⟨0, by decide⟩) ∈ DOC_PAGES ∧
          ∃ k ∈ pySplit (pyLower (pyStrip "getting started")), 3 < k.length ∧
            ∃ pre post,
              (hay (DOC_PAGES.get ⟨0, by decide⟩)).data = pre ++ k.data ++ post) :=
  ⟨by decide, ask_match_iff_token_in_haystack "getting started" (by decide) _⟩

/-- C2: every page of the registry is returned unchanged by `get_page`
applied to its own slug (slug, title, summary and content fields all
equal). -/
theorem get_page_roundtrip :
    ∀ p ∈ DOC_PAGES, ∃ r, get_page p.slug = some r ∧
      r.slug = p.slug ∧ r.title = p.title ∧ r.summary = p.summary ∧
      r.content = p.content := by
  have h : ∀ p ∈ DOC_PAGES, get_page p.slug = some p := by decide
  intro p hp
  exact ⟨p, h p hp, rfl, rfl, rfl, rfl⟩

/-- Witness for C2 at the first registry page. -/
theorem get_page_roundtrip_witness :
    (DOC_PAGES.get ⟨0, by decide⟩) ∈ DOC_PAGES ∧
      ∃ r, get_page (DOC_PAGES.get ⟨0, by decide⟩).slug = some r ∧
        r.slug = (DOC_PAGES.get ⟨0, by decide⟩).slug ∧
        r.title = (DOC_PAGES.get ⟨0, by decide⟩).title ∧
        r.summary = (DOC_PAGES.get ⟨0, by decide⟩).summary ∧
        r.content = (DOC_PAGES.get ⟨0, by decide⟩).content :=
  ⟨by decide, get_page_roundtrip _ (by decide)⟩

/-- C3: `get_page` on a slug that no registry page carries returns no page
(the 404 outcome). -/
theorem get_page_not_found :
    ∀ (s : String), (∀ p ∈ DOC_PAGES, p.slug ≠ s) → get_page s = none := by
  intro s h
  simp only [get_page, List.find?_eq_none]
  intro p hp
  simp [h p hp]

/-- Witness for C3 at slug `"missing"`. -/
theorem get_page_not_found_witness :
    (∀ p ∈ DOC_PAGES, p.slug ≠ "missing") ∧ get_page "missing" = none :=
  ⟨by decide, get_page_not_found "missing" (by decide)⟩

/-- C5: a question that is empty after trimming (empty or all-whitespace)
yields the fixed prompt answer with an empty sources list, as a normal
response. -/
theorem ask_empty_question_prompt :
    ∀ (question : String), pyStrip question = "" →
      ask_ai question = { answer := "Please provide a question.", sources := [] } := by
  intro question h
  simp only [ask_ai, h]
  decide

/-- Witness for C5 at the all-whitespace question `"   "`. -/
theorem ask_empty_question_prompt_witness :
    pyStrip "   " = "" ∧
      ask_ai "   " = { answer := "Please provide a question.", sources := [] } :=
  ⟨by decide, ask_empty_question_prompt "   " (by decide)⟩

/-- C4: `ask_ai` never returns more than 3 sources; matches are collected
in registry iteration order (the match list is a sublist of `DOC_PAGES`);
and when matches exist the answer embeds the bulleted
`"- <title> (/docs/<slug>)"` lines for the first at most 3 matches joined
by newlines in the fixed template, with `sources` exactly the
`"/docs/<slug>"` paths of those same pages in the same order. -/
theorem ask_sources_template :
    ∀ (question : String),
      (ask_ai question).sources.length ≤ 3 ∧
      List.Sublist (askMatches question) DOC_PAGES ∧
      (pyLower (pyStrip question) ≠ "" → askMatches question ≠ [] →
        ask_ai question =
          { answer :=
              "Here are some details I found in the documentation that may help:\n\n" ++
              String.intercalate "\n" (((askMatches question).take 3).map
                (fun m => "- " ++ m.title ++ " (/docs/" ++ m.slug ++ ")")) ++
              "\n\nOpen one of these pages for a deeper dive.",
            sources := ((askMatches question).take 3).map (fun m => "/docs/" ++ m.slug) }) := by
  intro question
  refine ⟨?_, List.filter_sublist _, ?_⟩
  · by_cases hq : pyLower (pyStrip question) = ""
    · simp [ask_ai, hq]
    · by_cases hm : (DOC_PAGES.filter (pageMatches (pyLower (pyStrip question)))).isEmpty
      · simp [ask_ai, hq, hm]
      · simp only [ask_ai, hq, if_false, Bool.not_eq_true] at *
        simp [hm, List.length_take]
  · intro h1 h2
    have hm : (DOC_PAGES.filter (pageMatches (pyLower (pyStrip question)))).isEmpty = false :=
      List.isEmpty_eq_false.mpr h2
    simp [ask_ai, h1, hm, foundAnswer, askMatches]
    rfl

/-- Witness for C4 at question `"docs"`, which matches all three pages. -/
theorem ask_sources_template_witness :
    pyLower (pyStrip "docs") ≠ "" ∧ askMatches "docs" ≠ [] ∧
      ask_ai "docs" =
        { answer :=
            "Here are some details I found in the documentation that may help:\n\n" ++
            String.intercalate "\n" (((askMatches "docs").take 3).map
              (fun m => "- " ++ m.title ++ " (/docs/" ++ m.slug ++ ")")) ++
            "\n\nOpen one of these pages for a deeper dive.",
          sources := ((askMatches "docs").take 3).map (fun m => "/docs/" ++ m.slug) } :=
  ⟨by decide, by decide, (ask_sources_template "docs").2.2 (by decide) (by decide)⟩

/-- C6: when a trimmed non-empty question matches no page, `ask_ai`
returns the fixed fallback answer with an empty sources list; in
particular `ask_ai "xyzxyz"` does. -/
theorem ask_no_match_fallback :
    (∀ (question : String), pyLower (pyStrip question) ≠ "" →
        DOC_PAGES.filter (pageMatches (pyLower (pyStrip question))) = [] →
        ask_ai question = { answer := fallbackAnswer, sources := [] }) ∧
      ask_ai "xyzxyz" = { answer := fallbackAnswer, sources := [] } :=
  ⟨ask_fallback_aux, ask_fallback_aux "xyzxyz" (by decide) (by decide)⟩

/-- Witness for C6 at question `"xyzxyz"`. -/
theorem ask_no_match_fallback_witness :
    pyLower (pyStrip "xyzxyz") ≠ "" ∧
      DOC_PAGES.filter (pageMatches (pyLower (pyStrip "xyzxyz"))) = [] ∧
      ask_ai "xyzxyz" = { answer := fallbackAnswer, sources := [] } :=
  ⟨by decide, by decide, ask_no_match_fallback.1 "xyzxyz" (by decide) (by decide)⟩

/-- C7: `list_pages` always succeeds (it is a total function), returning
the registry itself: its length is the number of defined pages and its
`i`-th element is the `i`-th defined page. -/
theorem list_pages_returns_all :
    list_pages = DOC_PAGES ∧ list_pages.length = DOC_PAGES.length ∧
      ∀ (i : Nat) (h : i < list_pages.length) (h2 : i < DOC_PAGES.length),
        list_pages.get ⟨i, h⟩ = DOC_PAGES.get ⟨i, h2⟩ :=
  ⟨rfl, rfl, fun _ _ _ => rfl⟩

/-- Witness for C7 at index 0. -/
theorem list_pages_returns_all_witness :
    0 < list_pages.length ∧ 0 < DOC_PAGES.length ∧
      list_pages.get ⟨0, by decide⟩ = DOC_PAGES.get ⟨0, by decide⟩ :=
  ⟨by decide, by decide, list_pages_returns_all.2.2 0 (by decide) (by decide)⟩

/-- C8: the diagnostic probe is a total function — every failure mode of
the optional database dependency (absent module, uninitialized handle, a
raised exception) yields a report whose `database` field is a descriptive
status string, the backend field always reads running, and every embedded
exception message is truncated to at most 50 characters. -/
theorem test_database_reports_failures :
    ∀ (msg : String) (u n : Bool),
      (∀ (db : DbOutcome), (test_database db u n).backend = "✅ Running") ∧
      (test_database .importError u n).database =
        "❌ Database module not found (run enable-database first)" ∧
      (test_database (.raised msg) u n).database = "❌ Error: " ++ pyTake msg 50 ∧
      (test_database .dbNone u n).database = "⚠️  Available but not initialized" ∧
      (∀ (name : Option String),
        (test_database (.dbSome name (.error msg)) u n).database =
          "⚠️  Connected but Error: " ++ pyTake msg 50) ∧
      (pyTake msg 50).length ≤ 50 := by
  intro msg u n
  refine ⟨?_, rfl, rfl, rfl, fun name => rfl, ?_⟩
  · intro db
    cases db with
    | importError => rfl
    | raised m => rfl
    | dbNone => rfl
    | dbSome name cols => cases cols <;> rfl
  · simp only [pyTake, String.length, List.length_take]
    exact min_le_left _ _

/-- C9: every slug in the registry is unique, so a lookup by slug
identifies at most one page; the registry is a constant that no operation
mutates. -/
theorem doc_pages_slugs_unique :
    (DOC_PAGES.map (fun p => p.slug)).Nodup ∧
      ∀ p₁ ∈ DOC_PAGES, ∀ p₂ ∈ DOC_PAGES, p₁.slug = p₂.slug → p₁ = p₂ :=
  ⟨by decide, by decide⟩

/-- Witness for C9 at the third registry page. -/
theorem doc_pages_slugs_unique_witness :
    (DOC_PAGES.get ⟨2, by decide⟩) ∈ DOC_PAGES ∧
      DOC_PAGES.get ⟨2, by decide⟩ = DOC_PAGES.get ⟨2, by decide⟩ :=
  ⟨by decide, doc_pages_slugs_unique.2 _ (by decide) _ (by decide) rfl⟩

/-- C10: a question that is non-empty after trimming but all of whose
tokens have length at most 3 (for example `"the cat"`) gets the no-match
fallback answer with empty sources, not the empty-question prompt. -/
theorem ask_short_tokens_fallback :
    ∀ (question : String), pyStrip question ≠ "" →
      (∀ k ∈ pySplit (pyLower (pyStrip question)), k.length ≤ 3) →
      ask_ai question = { answer := fallbackAnswer, sources := [] } := by
  intro question h1 h2
  have hq : pyLower (pyStrip question) ≠ "" := fun h =>
    h1 ((pyLower_eq_empty_iff _).mp h)
  have hfil : (pySplit (pyLower (pyStrip question))).filter
      (fun k => decide (3 < k.length)) = [] := by
    rw [List.filter_eq_nil_iff]
    intro k hk
    simp only [decide_eq_true_eq]
    exact Nat.not_lt.mpr (h2 k hk)
  have hmatch : ∀ p, pageMatches (pyLower (pyStrip question)) p = false := by
    intro p
    simp [pageMatches, hfil]
  have hfilter : DOC_PAGES.filter (pageMatches (pyLower (pyStrip question))) = [] := by
    rw [List.filter_eq_nil_iff]
    intro p _
    simp [hmatch p]
  exact ask_fallback_aux question hq hfilter

/-- Witness for C10 at question `"the cat"`. -/
theorem ask_short_tokens_fallback_witness :
    pyStrip "the cat" ≠ "" ∧
      (∀ k ∈ pySplit (pyLower (pyStrip "the cat")), k.length ≤ 3) ∧
      ask_ai "the cat" = { answer := fallbackAnswer, sources := [] } :=
  ⟨by decide, by decide, ask_short_tokens_fallback "the cat" (by decide) (by decide)⟩

end Docy
